import Mathlib

/-!
Verification of the Decentralized Subscription Payment System backend.

The repository is a small Flask API (`app.py`) over a read-only blockchain
access layer (`blockchain.py`).  We embed the pure helpers and the request
handlers as Lean functions.  Remote state (the chain node) and the keccak
hash used by EIP-55 checksumming are modelled as components of an explicit
environment record, so every handler is a pure function of that environment
and its inputs.
-/

/-- A Python exception, as far as this code distinguishes them: the code only
ever catches `ValueError` specially; every other exception is an
`otherError`.  The payload is `str(e)`. -/
inductive PyErr where
  | valueError (msg : String)
  | otherError (msg : String)
deriving DecidableEq, Repr

/-- `str(e)` on a modelled Python exception. -/
def PyErr.msg : PyErr → String
  | .valueError m => m
  | .otherError m => m

/-- Python `address.startswith('0x')`: the first two characters are `0x`.
(Strings are sequences of characters; we test the character list.) -/
def startsWith0x (address : String) : Bool :=
  address.data.take 2 = ['0', 'x']

/-- `validate_address` from `app.py`: syntactic checks applied in source
order (empty, `0x` head, length 42); returns `(is_valid, error_msg)`. -/
def validate_address (address : String) : Bool × Option String :=
  if address = "" then (false, some "Address is required")
  else if !(startsWith0x address) then (false, some "Address must start with 0x")
  else if address.length ≠ 42 then (false, some "Address must be 42 characters long")
  else (true, none)

/-- Python loads parts into a list via conditional `append`s and then runs
`", ".join(parts)`; this is `join` for a nonempty list. -/
def joinComma : List String → String
  | [] => ""
  | [p] => p
  | p :: ps => p ++ ", " ++ joinComma ps

/-- `format_duration` from `app.py`.  Python `//` and `%` on ints are floor
division and nonnegative remainder (for positive divisors), which is
`Int.ediv` / `Int.emod`. -/
def format_duration (seconds : Int) : String :=
  if seconds = 0 then "Expired"
  else
    let days := seconds.ediv 86400
    let hours := (seconds.emod 86400).ediv 3600
    let minutes := (seconds.emod 3600).ediv 60
    let parts : List String :=
      (if days > 0 then [toString days ++ " day" ++ (if days ≠ 1 then "s" else "")] else [])
      ++ (if hours > 0 then [toString hours ++ " hour" ++ (if hours ≠ 1 then "s" else "")] else [])
      ++ (if minutes > 0 then [toString minutes ++ " minute" ++ (if minutes ≠ 1 then "s" else "")] else [])
    if parts.isEmpty then "Less than a minute" else joinComma parts

/-- Left-pad a numeral to two digits, as `strftime` `%H`/`%M`/`%S`/`%m`/`%d` do. -/
def pad2 (n : Nat) : String :=
  if n < 10 then "0" ++ toString n else toString n

/-- Left-pad a year to four digits, as `strftime` `%Y` does for the years
`datetime` supports (year ≥ 1; negative years never occur in that range). -/
def pad4 (y : Int) : String :=
  let s := toString y.toNat
  if s.length < 4 then String.mk (List.replicate (4 - s.length) '0') ++ s else s

/-- Days-since-epoch to proleptic Gregorian `(year, month, day)`
(Hinnant's civil-from-days, simplified because `Int.ediv`/`Int.emod`
already floor). This is the calendar arithmetic inside `datetime`. -/
def civilFromDays (z0 : Int) : Int × Nat × Nat :=
  let z := z0 + 719468
  let era := z.ediv 146097
  let doe := (z.emod 146097).toNat
  let yoe := (doe - doe / 1460 + doe / 36524 - doe / 146096) / 365
  let y : Int := (yoe : Int) + era * 400
  let doy := doe - (365 * yoe + yoe / 4 - yoe / 100)
  let mp := (5 * doy + 2) / 153
  let d := doy - (153 * mp + 2) / 5 + 1
  let m := if mp < 10 then mp + 3 else mp - 9
  (if m ≤ 2 then y + 1 else y, m, d)

/-- `format_timestamp` from `app.py`.  `datetime.fromtimestamp(ts)` converts
using the server's LOCAL timezone; we model that timezone as a fixed UTC
offset in seconds (`tzOff`), so the rendered wall-clock time is that of
`ts + tzOff`.  The `"UTC"` suffix is a literal in the source format string
regardless of `tzOff`. -/
def format_timestamp (tzOff : Int) (timestamp : Int) : String :=
  if timestamp = 0 then "Never subscribed"
  else
    let t := timestamp + tzOff
    let days := t.ediv 86400
    let secs := (t.emod 86400).toNat
    let ymd := civilFromDays days
    pad4 ymd.1 ++ "-" ++ pad2 ymd.2.1 ++ "-" ++ pad2 ymd.2.2 ++ " "
      ++ pad2 (secs / 3600) ++ ":" ++ pad2 (secs % 3600 / 60) ++ ":" ++ pad2 (secs % 60)
      ++ " UTC"

/-- Lowercase hex digit, the alphabet `to_checksum_address` accepts after
lowercasing its input. -/
def isHexDigitChar (c : Char) : Bool :=
  c.isDigit || ('a' ≤ c && c ≤ 'f')

/-- `Web3.to_checksum_address` (eth-utils): lowercase the input and
`add_0x_prefix` it if the `0x` head is absent (so a bare 40-hex-digit
string is accepted too); reject with `ValueError` unless the result is a
`0x`-prefixed 40-hex-digit string; otherwise uppercase exactly the hex
letters whose keccak nibble exceeds 7.  The keccak hash of the lowercased
40-character hex part is the library primitive, modelled as the function
`kec` (lowercased hex part ↦ position ↦ nibble).  Character-wise string
operations are carried out on the character list. -/
def to_checksum_address (kec : List Char → Nat → Nat) (s : String) : Except Unit String :=
  let low := s.data.map Char.toLower
  let hexPart := if low.take 2 = ['0', 'x'] then low.drop 2 else low
  if hexPart.length = 40 && hexPart.all isHexDigitChar then
    .ok (String.mk ('0' :: 'x' :: hexPart.mapIdx
      (fun i c => if kec hexPart i > 7 then c.toUpper else c)))
  else
    .error ()

/-- The environment a request handler runs against: the keccak primitive and
the results of the read-only remote contract calls (`blockchain.py` issues
them through `self.contract.functions.<f>(...).call()`).  Each remote call
either produces a value or raises; per-wallet calls are keyed by the
checksummed address they are given. -/
structure ChainEnv where
  kec : List Char → Nat → Nat
  isActiveCall : String → Except PyErr Bool
  getExpiryCall : String → Except PyErr Int
  getRemainingCall : String → Except PyErr Int
  priceCall : Except PyErr Int
  durationCall : Except PyErr Int
  totalSubscribersCall : Except PyErr Int
  totalRevenueCall : Except PyErr Int
  getBalanceCall : Except PyErr Int
  contractAddress : String

namespace Blockchain

/-- `BlockchainService.is_subscription_active`: checksum the address, call
`isActive`; any `ValueError` raised in the `try` block is re-raised as
`ValueError("Invalid wallet address: <addr>")`; every other exception
propagates unchanged. -/
def is_subscription_active (env : ChainEnv) (wallet_address : String) : Except PyErr Bool :=
  match to_checksum_address env.kec wallet_address with
  | .error _ => .error (.valueError ("Invalid wallet address: " ++ wallet_address))
  | .ok ca =>
    match env.isActiveCall ca with
    | .ok v => .ok v
    | .error (.valueError _) => .error (.valueError ("Invalid wallet address: " ++ wallet_address))
    | .error (.otherError m) => .error (.otherError m)

/-- `BlockchainService.get_subscription_expiry`: same shape over `getExpiry`. -/
def get_subscription_expiry (env : ChainEnv) (wallet_address : String) : Except PyErr Int :=
  match to_checksum_address env.kec wallet_address with
  | .error _ => .error (.valueError ("Invalid wallet address: " ++ wallet_address))
  | .ok ca =>
    match env.getExpiryCall ca with
    | .ok v => .ok v
    | .error (.valueError _) => .error (.valueError ("Invalid wallet address: " ++ wallet_address))
    | .error (.otherError m) => .error (.otherError m)

/-- `BlockchainService.get_remaining_time`: same shape over `getRemainingTime`. -/
def get_remaining_time (env : ChainEnv) (wallet_address : String) : Except PyErr Int :=
  match to_checksum_address env.kec wallet_address with
  | .error _ => .error (.valueError ("Invalid wallet address: " ++ wallet_address))
  | .ok ca =>
    match env.getRemainingCall ca with
    | .ok v => .ok v
    | .error (.valueError _) => .error (.valueError ("Invalid wallet address: " ++ wallet_address))
    | .error (.otherError m) => .error (.otherError m)

end Blockchain

/-- The stats dictionary built by `BlockchainService.get_contract_stats`.
`from_wei(_, "ether")` divides by 10^18 (exact in Decimal, modelled as an
exact rational); `SUBSCRIPTION_DURATION()/86400` is Python true division,
also modelled as the exact rational (no claim depends on float rounding). -/
structure ContractStats where
  subscription_price_wei : Int
  subscription_price_eth : Rat
  subscription_duration_seconds : Int
  subscription_duration_days : Rat
  total_subscribers : Int
  total_revenue_wei : Int
  total_revenue_eth : Rat
  contract_balance_wei : Int
  contract_balance_eth : Rat
  contract_address : String
deriving DecidableEq, Repr

/-- `Web3.from_wei(w, "ether")`. -/
def from_wei (w : Int) : Rat := (w : Rat) / (10 : Rat) ^ 18

namespace Blockchain

/-- `BlockchainService.get_contract_stats`: the dict literal evaluates its
remote calls in source order; each constant getter is called once or twice
with the same (per-request) result, so repeated calls are folded into one
value.  Any exception `e` raised while building the dict is caught and
re-raised as `Exception("Error fetching contract stats: " + str(e))`. -/
def get_contract_stats (env : ChainEnv) : Except PyErr ContractStats :=
  match env.priceCall with
  | .error e => .error (.otherError ("Error fetching contract stats: " ++ e.msg))
  | .ok p =>
  match env.durationCall with
  | .error e => .error (.otherError ("Error fetching contract stats: " ++ e.msg))
  | .ok dur =>
  match env.totalSubscribersCall with
  | .error e => .error (.otherError ("Error fetching contract stats: " ++ e.msg))
  | .ok subs =>
  match env.totalRevenueCall with
  | .error e => .error (.otherError ("Error fetching contract stats: " ++ e.msg))
  | .ok rev =>
  match env.getBalanceCall with
  | .error e => .error (.otherError ("Error fetching contract stats: " ++ e.msg))
  | .ok bal =>
    .ok { subscription_price_wei := p
          subscription_price_eth := from_wei p
          subscription_duration_seconds := dur
          subscription_duration_days := (dur : Rat) / 86400
          total_subscribers := subs
          total_revenue_wei := rev
          total_revenue_eth := from_wei rev
          contract_balance_wei := bal
          contract_balance_eth := from_wei bal
          contract_address := env.contractAddress }

end Blockchain

/-- A JSON response body: either the route's success object or an object
with a single `"error"` key holding `msg`. -/
inductive RespBody (α : Type) where
  | ok (a : α)
  | err (msg : String)
deriving DecidableEq, Repr

/-- Success body of `GET /status/<wallet_address>`. -/
structure StatusBody where
  wallet_address : String
  is_active : Bool
  expiry_timestamp : Int
  expiry_date : String
  remaining_seconds : Int
  remaining_time : String
deriving DecidableEq, Repr

/-- Success body of `GET /expiry/<wallet_address>`. -/
structure ExpiryBody where
  wallet_address : String
  expiry_timestamp : Int
  expiry_date : String
deriving DecidableEq, Repr

/-- Success body of `GET /remaining/<wallet_address>`. -/
structure RemainingBody where
  wallet_address : String
  remaining_seconds : Int
  remaining_time : String
deriving DecidableEq, Repr

namespace App

/-- Route `GET /status/<wallet_address>` (`get_subscription_status` in
`app.py`).  Result: HTTP status, body, and the trace of Chain Reader
operations that were invoked (in order).  The two trailing branches of each
reader call are the route's `except ValueError` (400 with `str(e)`) and
`except Exception` (500 with the generic body) clauses. -/
def get_subscription_status (env : ChainEnv) (tzOff : Int) (wallet_address : String) :
    Nat × RespBody StatusBody × List String :=
  match validate_address wallet_address with
  | (false, msg) => (400, .err (msg.getD ""), [])
  | (true, _) =>
    match Blockchain.is_subscription_active env wallet_address with
    | .error (.valueError m) => (400, .err m, ["is_subscription_active"])
    | .error (.otherError _) => (500, .err "Internal server error", ["is_subscription_active"])
    | .ok act =>
      match Blockchain.get_subscription_expiry env wallet_address with
      | .error (.valueError m) => (400, .err m,
          ["is_subscription_active", "get_subscription_expiry"])
      | .error (.otherError _) => (500, .err "Internal server error",
          ["is_subscription_active", "get_subscription_expiry"])
      | .ok expiry =>
        match Blockchain.get_remaining_time env wallet_address with
        | .error (.valueError m) => (400, .err m,
            ["is_subscription_active", "get_subscription_expiry", "get_remaining_time"])
        | .error (.otherError _) => (500, .err "Internal server error",
            ["is_subscription_active", "get_subscription_expiry", "get_remaining_time"])
        | .ok rem =>
          (200, .ok { wallet_address := wallet_address
                      is_active := act
                      expiry_timestamp := expiry
                      expiry_date := format_timestamp tzOff expiry
                      remaining_seconds := rem
                      remaining_time := format_duration rem },
            ["is_subscription_active", "get_subscription_expiry", "get_remaining_time"])

/-- Route `GET /expiry/<wallet_address>` (`get_subscription_expiry` in `app.py`). -/
def get_subscription_expiry (env : ChainEnv) (tzOff : Int) (wallet_address : String) :
    Nat × RespBody ExpiryBody × List String :=
  match validate_address wallet_address with
  | (false, msg) => (400, .err (msg.getD ""), [])
  | (true, _) =>
    match Blockchain.get_subscription_expiry env wallet_address with
    | .error (.valueError m) => (400, .err m, ["get_subscription_expiry"])
    | .error (.otherError _) => (500, .err "Internal server error", ["get_subscription_expiry"])
    | .ok expiry =>
      (200, .ok { wallet_address := wallet_address
                  expiry_timestamp := expiry
                  expiry_date := format_timestamp tzOff expiry },
        ["get_subscription_expiry"])

/-- Route `GET /remaining/<wallet_address>` (`get_remaining_time` in `app.py`). -/
def get_remaining_time (env : ChainEnv) (wallet_address : String) :
    Nat × RespBody RemainingBody × List String :=
  match validate_address wallet_address with
  | (false, msg) => (400, .err (msg.getD ""), [])
  | (true, _) =>
    match Blockchain.get_remaining_time env wallet_address with
    | .error (.valueError m) => (400, .err m, ["get_remaining_time"])
    | .error (.otherError _) => (500, .err "Internal server error", ["get_remaining_time"])
    | .ok rem =>
      (200, .ok { wallet_address := wallet_address
                  remaining_seconds := rem
                  remaining_time := format_duration rem },
        ["get_remaining_time"])

/-- Route `GET /stats` (`get_contract_stats` in `app.py`): any exception is
caught generically and surfaced as the 500 body. -/
def get_contract_stats (env : ChainEnv) : Nat × RespBody ContractStats :=
  match Blockchain.get_contract_stats env with
  | .ok s => (200, .ok s)
  | .error _ => (500, .err "Internal server error")

end App

/-! ## Spec-side comparison definitions and concrete test fixtures -/

/-- Modelled from the spec: the duration formatting contract as §4.2 states
it over nonnegative second counts — decompose by floor division into
days/hours/minutes, pluralize (singular exactly at 1), join the nonzero
components with ", ", with the 0 and all-components-zero sentinels. -/
def durationSpec (n : Nat) : String :=
  if n = 0 then "Expired"
  else
    let d := n / 86400
    let h := n % 86400 / 3600
    let m := n % 3600 / 60
    let parts : List String :=
      (if d > 0 then [toString d ++ " day" ++ (if d ≠ 1 then "s" else "")] else [])
      ++ (if h > 0 then [toString h ++ " hour" ++ (if h ≠ 1 then "s" else "")] else [])
      ++ (if m > 0 then [toString m ++ " minute" ++ (if m ≠ 1 then "s" else "")] else [])
    if parts.isEmpty then "Less than a minute" else joinComma parts

/-- Modelled from the spec: the specific rejection message the Gateway's
validation contract assigns to a syntactically bad address (first failing
check wins). -/
def validationMsg (address : String) : String :=
  if address = "" then "Address is required"
  else if !(startsWith0x address) then "Address must start with 0x"
  else "Address must be 42 characters long"

/-- Modelled from the spec: an error of the `InvalidAddress` kind — the
`ValueError` the read layer raises when an address fails normalization
(its message opens with the fixed invalid-address text). -/
def isInvalidAddressKind : PyErr → Bool
  | .valueError m => m.data.take 24 = ("Invalid wallet address: ").data
  | .otherError _ => false

/-- Modelled from the spec: an error of the `RemoteCallFailure` kind — the
wrapping exception the read layer raises from `get_contract_stats`
(its message opens with the fixed wrapping text). -/
def isRemoteCallFailureKind : PyErr → Bool
  | .valueError _ => false
  | .otherError m => m.data.take 31 = ("Error fetching contract stats: ").data

/-- A well-formed all-lowercase address (40 hex digits). -/
def aLow : String := "0xaaaaaaaaaaaaaaaaaaaaaaaaaaaaaaaaaaaaaaaa"

/-- The same address with every hex digit uppercased. -/
def aUp : String := "0xAAAAAAAAAAAAAAAAAAAAAAAAAAAAAAAAAAAAAAAA"

/-- 42 characters, `0x`-prefixed, but not hex. -/
def aBadHex : String := "0xzzzzzzzzzzzzzzzzzzzzzzzzzzzzzzzzzzzzzzzz"

/-- An environment whose remote calls all succeed.  The keccak nibbles are
all 0, so the canonical checksum of `aLow`/`aUp` is `aLow` itself. -/
def sampleEnv : ChainEnv where
  kec := fun _ _ => 0
  isActiveCall := fun _ => .ok true
  getExpiryCall := fun _ => .ok 86400
  getRemainingCall := fun _ => .ok 3661
  priceCall := .ok 1000000000000000
  durationCall := .ok 2592000
  totalSubscribersCall := .ok 42
  totalRevenueCall := .ok 42000000000000000
  getBalanceCall := .ok 42000000000000000
  contractAddress := aLow

/-- An environment whose remote calls all fail with transport-level errors
(modelling a connection failure, not a `ValueError`). -/
def failEnv : ChainEnv where
  kec := fun _ _ => 0
  isActiveCall := fun _ => .error (.otherError "Connection refused")
  getExpiryCall := fun _ => .error (.otherError "Connection refused")
  getRemainingCall := fun _ => .error (.otherError "Connection refused")
  priceCall := .error (.otherError "timeout")
  durationCall := .error (.otherError "timeout")
  totalSubscribersCall := .error (.otherError "timeout")
  totalRevenueCall := .error (.otherError "timeout")
  getBalanceCall := .error (.otherError "timeout")
  contractAddress := aLow

/-! ## Shared helper lemmas -/

theorem data_append (a b : String) : (a ++ b).data = a.data ++ b.data := rfl

theorem toString_natCast (k : Nat) : toString ((k : Int)) = toString k := rfl

theorem ediv_natCast (a b : Nat) : (a : Int).ediv (b : Int) = ((a / b : Nat) : Int) := rfl

theorem emod_natCast (a b : Nat) : (a : Int).emod (b : Int) = ((a % b : Nat) : Int) := rfl

theorem ediv_cast86400 (a : Nat) : (a : Int).ediv 86400 = ((a / 86400 : Nat) : Int) := rfl

theorem emod_cast86400 (a : Nat) : (a : Int).emod 86400 = ((a % 86400 : Nat) : Int) := rfl

theorem ediv_cast3600 (a : Nat) : (a : Int).ediv 3600 = ((a / 3600 : Nat) : Int) := rfl

theorem emod_cast3600 (a : Nat) : (a : Int).emod 3600 = ((a % 3600 : Nat) : Int) := rfl

theorem ediv_cast60 (a : Nat) : (a : Int).ediv 60 = ((a / 60 : Nat) : Int) := rfl

theorem validAddr_of_shape (s : String) (hp : startsWith0x s = true) (hl : s.length = 42) :
    validate_address s = (true, none) := by
  have hne : s ≠ "" := by
    intro he; rw [he] at hp; exact absurd hp (by decide)
  simp [validate_address, hne, hp, hl]

theorem ne_expired_of_space (s : String) (h : ' ' ∈ s.data) : s ≠ "Expired" := by
  intro he
  rw [he] at h
  exact absurd h (by decide)

theorem mem_space_concat (x : Int) (u sfx : String) (hu : ' ' ∈ u.data) :
    ' ' ∈ (toString x ++ u ++ sfx).data := by
  rw [data_append, data_append]
  exact List.mem_append_left _ (List.mem_append_right _ hu)

theorem space_mem_joinComma (l : List String) (p : String) (hp : p ∈ l) (h : ' ' ∈ p.data) :
    ' ' ∈ (joinComma l).data := by
  induction l with
  | nil => cases hp
  | cons q qs ih =>
    cases qs with
    | nil =>
      rcases List.mem_cons.mp hp with h1 | h1
      · rw [h1] at h; exact h
      · cases h1
    | cons r rs =>
      have hj : joinComma (q :: r :: rs) = q ++ ", " ++ joinComma (r :: rs) := rfl
      rw [hj, data_append, data_append]
      rcases List.mem_cons.mp hp with h1 | h1
      · exact List.mem_append_left _ (List.mem_append_left _ (h1 ▸ h))
      · exact List.mem_append_right _ (ih h1)

theorem fd_ne_expired (s : Int) (hs : s ≠ 0) : format_duration s ≠ "Expired" := by
  unfold format_duration
  rw [if_neg hs]
  simp only []
  by_cases hd : s.ediv 86400 > 0 <;>
  by_cases hh : (s.emod 86400).ediv 3600 > 0 <;>
  by_cases hm : (s.emod 3600).ediv 60 > 0 <;>
  simp only [hd, hh, hm, if_true, if_false, List.append_nil, List.nil_append,
    List.append_assoc, List.singleton_append, List.cons_append, List.isEmpty_cons,
    List.isEmpty_nil, ite_true, ite_false, Bool.false_eq_true] <;>
  first
  | decide
  | exact ne_expired_of_space _
      (space_mem_joinComma _ _ (List.mem_cons_self _ _) (mem_space_concat _ _ _ (by decide)))

/-! ## Claim theorems -/

/-- Claim C4: for every nonnegative number of seconds, `format_duration`
agrees with the spec's duration-formatting contract (floor decomposition
into days/hours/minutes, pluralization singular exactly at 1, nonzero
components joined with ", ", with the "Expired" and "Less than a minute"
sentinels), and the five pinned examples hold. -/
theorem format_duration_matches_spec :
    (∀ n : Nat, format_duration (n : Int) = durationSpec n) ∧
    format_duration 0 = "Expired" ∧
    format_duration 59 = "Less than a minute" ∧
    format_duration 90 = "1 minute" ∧
    format_duration 3661 = "1 hour, 1 minute" ∧
    format_duration 90000 = "1 day, 1 hour" := by
  refine ⟨?_, by decide, by decide, by decide, by decide, by decide⟩
  intro n
  by_cases h : n = 0
  · subst h; rfl
  · unfold format_duration durationSpec
    rw [if_neg (by exact_mod_cast h), if_neg h]
    simp only [ediv_cast86400, emod_cast86400, ediv_cast3600, emod_cast3600, ediv_cast60,
      toString_natCast, Int.natCast_pos, ne_eq, Nat.cast_eq_one]

/-- Claim C9 (amended): `format_duration` returns "Expired" exactly at 0; a
negative input is decomposed with Python floor semantics but only the
strictly positive components are rendered, so -1 second yields
"23 hours, 59 minutes" (no negative day count ever appears), and a negative
whole number of days yields "Less than a minute". -/
theorem format_duration_expired_iff_zero :
    (∀ s : Int, format_duration s = "Expired" ↔ s = 0) ∧
    format_duration (-1) = "23 hours, 59 minutes" ∧
    format_duration (-86400) = "Less than a minute" := by
  refine ⟨fun s => ⟨fun h => ?_, fun h => by rw [h]; rfl⟩, by decide, by decide⟩
  by_contra hs
  exact fd_ne_expired s hs h

/-- Claim C9 (counterexample): at -1 the code skips the nonpositive day
component, so the output is "23 hours, 59 minutes", not the claimed
"-1 days, 23 hours, 59 minutes". -/
theorem format_duration_neg_one_no_negative_days :
    format_duration (-1) = "23 hours, 59 minutes" ∧
    format_duration (-1) ≠ "-1 days, 23 hours, 59 minutes" := by
  constructor
  · decide
  · decide

/-- Claim C5: `validate_address` applies exactly the three checks in source
order and returns the matching message for the first failing one; any other
string is accepted. -/
theorem validate_address_checks (s : String) :
    (s = "" → validate_address s = (false, some "Address is required")) ∧
    (s ≠ "" → startsWith0x s = false →
      validate_address s = (false, some "Address must start with 0x")) ∧
    (startsWith0x s = true → s.length ≠ 42 →
      validate_address s = (false, some "Address must be 42 characters long")) ∧
    (startsWith0x s = true → s.length = 42 → validate_address s = (true, none)) := by
  refine ⟨fun h => by simp [validate_address, h],
          fun h1 h2 => by simp [validate_address, h1, h2],
          fun h1 h2 => ?_,
          fun h1 h2 => validAddr_of_shape s h1 h2⟩
  have hne : s ≠ "" := by
    intro he; rw [he] at h1; exact absurd h1 (by decide)
  simp [validate_address, hne, h1, h2]

theorem validate_address_checks_witness :
    validate_address "" = (false, some "Address is required") ∧
    validate_address "abc" = (false, some "Address must start with 0x") ∧
    validate_address "0x12" = (false, some "Address must be 42 characters long") ∧
    validate_address aLow = (true, none) :=
  ⟨(validate_address_checks "").1 rfl,
   (validate_address_checks "abc").2.1 (by decide) (by decide),
   (validate_address_checks "0x12").2.2.1 (by decide) (by decide),
   (validate_address_checks aLow).2.2.2 (by decide) (by decide)⟩

/-- Claim C2: `format_timestamp` maps 0 to "Never subscribed" for every
server timezone; but a nonzero timestamp is rendered in the server's LOCAL
wall-clock time with a hard-coded "UTC" suffix (`datetime.fromtimestamp`
converts to local time), so on a UTC+01:00 server the timestamp 86400
renders as "1970-01-02 01:00:00 UTC" instead of the true UTC calendar time
"1970-01-02 00:00:00 UTC". -/
theorem format_timestamp_renders_local_time :
    (∀ tz : Int, format_timestamp tz 0 = "Never subscribed") ∧
    format_timestamp 3600 86400 = "1970-01-02 01:00:00 UTC" ∧
    format_timestamp 0 86400 = "1970-01-02 00:00:00 UTC" ∧
    format_timestamp 3600 86400 ≠ format_timestamp 0 86400 :=
  ⟨fun _ => rfl, by decide, by decide, by decide⟩

theorem validationMsg_of_invalid (addr : String)
    (h : addr.length ≠ 42 ∨ startsWith0x addr = false) :
    validate_address addr = (false, some (validationMsg addr)) := by
  unfold validate_address validationMsg
  by_cases he : addr = ""
  · simp [he]
  · by_cases hp : startsWith0x addr = true
    · rcases h with h | h
      · simp [he, hp, h]
      · rw [hp] at h; exact absurd h (by decide)
    · simp at hp
      simp [he, hp]

/-- Claim C6: a syntactically invalid address (wrong length or missing `0x`
head) makes every per-wallet route answer 400 with the matching specific
message in the error body, without invoking any Chain Reader operation
(the trace of reader operations is empty). -/
theorem invalid_address_rejected_before_reader
    (env : ChainEnv) (tz : Int) (addr : String)
    (h : addr.length ≠ 42 ∨ startsWith0x addr = false) :
    App.get_subscription_status env tz addr = (400, .err (validationMsg addr), []) ∧
    App.get_subscription_expiry env tz addr = (400, .err (validationMsg addr), []) ∧
    App.get_remaining_time env addr = (400, .err (validationMsg addr), []) := by
  have hv := validationMsg_of_invalid addr h
  refine ⟨?_, ?_, ?_⟩ <;>
    simp [App.get_subscription_status, App.get_subscription_expiry, App.get_remaining_time, hv]

theorem invalid_address_rejected_before_reader_witness :
    App.get_subscription_status sampleEnv 0 "0x12" = (400, .err (validationMsg "0x12"), []) ∧
    App.get_subscription_expiry sampleEnv 0 "0x12" = (400, .err (validationMsg "0x12"), []) ∧
    App.get_remaining_time sampleEnv "0x12" = (400, .err (validationMsg "0x12"), []) :=
  invalid_address_rejected_before_reader sampleEnv 0 "0x12" (Or.inl (by decide))

/-- Claim C7: a 42-character `0x`-prefixed address containing non-hex
characters passes the Gateway's syntactic check, fails the Chain Reader's
normalization, and every per-wallet route answers 400 through the
`InvalidAddress` path — with a message distinct from the three syntactic
rejection messages (the reader operation is invoked, but it raises before
any remote call). -/
theorem nonhex_address_fails_in_reader
    (env : ChainEnv) (tz : Int) (addr : String)
    (hp : startsWith0x addr = true) (hl : addr.length = 42)
    (hx : ((addr.data.map Char.toLower).drop 2).all isHexDigitChar = false) :
    App.get_subscription_status env tz addr =
      (400, .err ("Invalid wallet address: " ++ addr), ["is_subscription_active"]) ∧
    App.get_subscription_expiry env tz addr =
      (400, .err ("Invalid wallet address: " ++ addr), ["get_subscription_expiry"]) ∧
    App.get_remaining_time env addr =
      (400, .err ("Invalid wallet address: " ++ addr), ["get_remaining_time"]) ∧
    ("Invalid wallet address: " ++ addr) ≠ "Address is required" ∧
    ("Invalid wallet address: " ++ addr) ≠ "Address must start with 0x" ∧
    ("Invalid wallet address: " ++ addr) ≠ "Address must be 42 characters long" := by
  have hv := validAddr_of_shape addr hp hl
  have hcs : to_checksum_address env.kec addr = .error () := by
    have hp' : addr.data.take 2 = ['0', 'x'] := by simpa [startsWith0x] using hp
    have htake : (addr.data.map Char.toLower).take 2 = ['0', 'x'] := by
      rw [← List.map_take, hp']
      rfl
    simp [to_checksum_address, htake, hx]
  have hkey : ∀ t : String, t.length ≠ 66 → ("Invalid wallet address: " ++ addr) ≠ t := by
    intro t ht he
    apply ht
    rw [← he, String.length_append, hl]
    decide
  refine ⟨?_, ?_, ?_, hkey _ (by decide), hkey _ (by decide), hkey _ (by decide)⟩ <;>
    simp [App.get_subscription_status, App.get_subscription_expiry, App.get_remaining_time,
      Blockchain.is_subscription_active, Blockchain.get_subscription_expiry,
      Blockchain.get_remaining_time, hv, hcs]

theorem nonhex_address_fails_in_reader_witness :
    App.get_subscription_status sampleEnv 0 aBadHex =
      (400, .err ("Invalid wallet address: " ++ aBadHex), ["is_subscription_active"]) ∧
    ("Invalid wallet address: " ++ aBadHex) ≠ "Address must be 42 characters long" :=
  have T := nonhex_address_fails_in_reader sampleEnv 0 aBadHex (by decide) (by decide) (by decide)
  ⟨T.1, T.2.2.2.2.2⟩

/-- Claim C8: whenever any underlying remote read used by `GET /stats`
fails, the route answers 500 with exactly the generic body — the exception
text never appears in the response. -/
theorem stats_failure_returns_generic_500 (env : ChainEnv)
    (h : env.priceCall.isOk = false ∨ env.durationCall.isOk = false ∨
         env.totalSubscribersCall.isOk = false ∨ env.totalRevenueCall.isOk = false ∨
         env.getBalanceCall.isOk = false) :
    App.get_contract_stats env = (500, .err "Internal server error") := by
  rcases hp : env.priceCall with e | p <;>
  rcases hd : env.durationCall with e2 | d <;>
  rcases hs : env.totalSubscribersCall with e3 | sb <;>
  rcases hr : env.totalRevenueCall with e4 | rv <;>
  rcases hb : env.getBalanceCall with e5 | bl <;>
  simp_all [App.get_contract_stats, Blockchain.get_contract_stats, Except.isOk, Except.toBool]

theorem stats_failure_returns_generic_500_witness :
    App.get_contract_stats failEnv = (500, .err "Internal server error") :=
  stats_failure_returns_generic_500 failEnv (Or.inl (by decide))

/-- Claim C10: on success, every per-wallet route echoes the caller-supplied
address string verbatim in the `wallet_address` field of the body (whatever
casing the URL used, not the checksum-normalized form). -/
theorem success_body_echoes_request_address (env : ChainEnv) (tz : Int) (addr : String) :
    (∀ st b tr, App.get_subscription_status env tz addr = (st, .ok b, tr) →
      b.wallet_address = addr) ∧
    (∀ st b tr, App.get_subscription_expiry env tz addr = (st, .ok b, tr) →
      b.wallet_address = addr) ∧
    (∀ st b tr, App.get_remaining_time env addr = (st, .ok b, tr) →
      b.wallet_address = addr) := by
  refine ⟨?_, ?_, ?_⟩
  · intro st b tr h
    unfold App.get_subscription_status at h
    iterate 6 (all_goals try split at h)
    all_goals first
      | (simp only [Prod.mk.injEq, RespBody.ok.injEq] at h
         obtain ⟨-, hb, -⟩ := h
         subst hb
         rfl)
      | simp_all
  · intro st b tr h
    unfold App.get_subscription_expiry at h
    iterate 4 (all_goals try split at h)
    all_goals first
      | (simp only [Prod.mk.injEq, RespBody.ok.injEq] at h
         obtain ⟨-, hb, -⟩ := h
         subst hb
         rfl)
      | simp_all
  · intro st b tr h
    unfold App.get_remaining_time at h
    iterate 4 (all_goals try split at h)
    all_goals first
      | (simp only [Prod.mk.injEq, RespBody.ok.injEq] at h
         obtain ⟨-, hb, -⟩ := h
         subst hb
         rfl)
      | simp_all

/-- The status body `GET /status/aLow` produces against `sampleEnv`. -/
def sampleStatusBody : StatusBody :=
  { wallet_address := aLow
    is_active := true
    expiry_timestamp := 86400
    expiry_date := format_timestamp 0 86400
    remaining_seconds := 3661
    remaining_time := format_duration 3661 }

/-- The status body `GET /status/aUp` produces against `sampleEnv`: the same
except that the echoed address keeps the caller's casing. -/
def sampleStatusBodyUp : StatusBody :=
  { sampleStatusBody with wallet_address := aUp }

theorem success_body_echoes_request_address_witness :
    sampleStatusBody.wallet_address = aLow :=
  (success_body_echoes_request_address sampleEnv 0 aLow).1 200 sampleStatusBody
    ["is_subscription_active", "get_subscription_expiry", "get_remaining_time"] (by decide)

theorem take_prefix_append (p c : String) : (p ++ c).data.take p.data.length = p.data := by
  rw [data_append]
  exact List.take_left p.data c.data

theorem stats_msg_take (c : String) :
    ("Error fetching contract stats: " ++ c).data.take 31 =
      ("Error fetching contract stats: ").data := by
  have hl : ("Error fetching contract stats: ").data.length = 31 := rfl
  have h := take_prefix_append "Error fetching contract stats: " c
  rw [hl] at h
  exact h

/-- Claim C3 (amended): `get_contract_stats` wraps every failure in the
generic `RemoteCallFailure`-style exception; the three per-wallet reader
operations convert a failed normalization (and any remote `ValueError`)
into the `InvalidAddress`-style `ValueError`, but any other remote
exception propagates to the caller unchanged — raw. -/
theorem chain_reader_error_surface (env : ChainEnv) (addr : String) :
    (∀ e, Blockchain.get_contract_stats env = .error e → isRemoteCallFailureKind e = true) ∧
    (to_checksum_address env.kec addr = .error () →
      Blockchain.is_subscription_active env addr =
        .error (.valueError ("Invalid wallet address: " ++ addr)) ∧
      Blockchain.get_subscription_expiry env addr =
        .error (.valueError ("Invalid wallet address: " ++ addr)) ∧
      Blockchain.get_remaining_time env addr =
        .error (.valueError ("Invalid wallet address: " ++ addr))) ∧
    (∀ ca, to_checksum_address env.kec addr = .ok ca →
      (∀ m, env.isActiveCall ca = .error (.valueError m) →
        Blockchain.is_subscription_active env addr =
          .error (.valueError ("Invalid wallet address: " ++ addr))) ∧
      (∀ m, env.isActiveCall ca = .error (.otherError m) →
        Blockchain.is_subscription_active env addr = .error (.otherError m)) ∧
      (∀ m, env.getExpiryCall ca = .error (.valueError m) →
        Blockchain.get_subscription_expiry env addr =
          .error (.valueError ("Invalid wallet address: " ++ addr))) ∧
      (∀ m, env.getExpiryCall ca = .error (.otherError m) →
        Blockchain.get_subscription_expiry env addr = .error (.otherError m)) ∧
      (∀ m, env.getRemainingCall ca = .error (.valueError m) →
        Blockchain.get_remaining_time env addr =
          .error (.valueError ("Invalid wallet address: " ++ addr))) ∧
      (∀ m, env.getRemainingCall ca = .error (.otherError m) →
        Blockchain.get_remaining_time env addr = .error (.otherError m))) := by
  refine ⟨?_, ?_, ?_⟩
  · intro e he
    unfold Blockchain.get_contract_stats at he
    iterate 6 (all_goals try split at he)
    all_goals first
      | (injection he with h1
         subst h1
         simp only [isRemoteCallFailureKind, decide_eq_true_eq]
         exact stats_msg_take _)
      | simp at he
  · intro hcs
    refine ⟨?_, ?_, ?_⟩ <;>
      simp [Blockchain.is_subscription_active, Blockchain.get_subscription_expiry,
        Blockchain.get_remaining_time, hcs]
  · intro ca hca
    refine ⟨?_, ?_, ?_, ?_, ?_, ?_⟩ <;> intro m hm <;>
      simp [Blockchain.is_subscription_active, Blockchain.get_subscription_expiry,
        Blockchain.get_remaining_time, hca, hm]

/-- An environment whose per-wallet remote calls raise `ValueError` (the
kind web3 itself uses for some RPC-level failures), to exercise the
wrap-into-InvalidAddress path. -/
def veEnv : ChainEnv :=
  { failEnv with
    isActiveCall := fun _ => .error (.valueError "odd-length string")
    getExpiryCall := fun _ => .error (.valueError "odd-length string")
    getRemainingCall := fun _ => .error (.valueError "odd-length string") }

theorem chain_reader_error_surface_witness :
    isRemoteCallFailureKind (.otherError "Error fetching contract stats: timeout") = true ∧
    Blockchain.get_subscription_expiry failEnv aLow = .error (.otherError "Connection refused") ∧
    Blockchain.is_subscription_active veEnv aLow =
      .error (.valueError ("Invalid wallet address: " ++ aLow)) :=
  have T := chain_reader_error_surface failEnv aLow
  have T2 := chain_reader_error_surface veEnv aLow
  ⟨T.1 _ rfl,
   ((T.2.2 aLow rfl).2.2.2.1) "Connection refused" rfl,
   ((T2.2.2 aLow rfl).1) "odd-length string" rfl⟩

/-- Claim C3 (counterexample): a transport failure inside the `isActive`
remote call escapes `is_subscription_active` unchanged — the surfaced error
is neither of the two defined kinds. -/
theorem raw_transport_error_escapes_reader :
    Blockchain.is_subscription_active failEnv aLow = .error (.otherError "Connection refused") ∧
    isInvalidAddressKind (.otherError "Connection refused") = false ∧
    isRemoteCallFailureKind (.otherError "Connection refused") = false :=
  ⟨rfl, by decide, by decide⟩

/-- Claim C1 (counterexample): two spellings of the same address that differ
only in hex-digit case get the same status code but NOT the same JSON body —
the `wallet_address` field echoes the caller's spelling. -/
theorem case_variant_bodies_differ :
    (App.get_subscription_status sampleEnv 0 aLow).1 =
      (App.get_subscription_status sampleEnv 0 aUp).1 ∧
    (App.get_subscription_status sampleEnv 0 aLow).2.1 ≠
      (App.get_subscription_status sampleEnv 0 aUp).2.1 :=
  ⟨by decide, by decide⟩

/-- Claim C1 (amended): for two valid-shaped 42-character `0x` addresses that
differ only in letter case, the three per-wallet routes return equal status
codes, and on success the bodies agree on every field except
`wallet_address`, which echoes each caller's own spelling (the remote query
uses the one canonical checksum form, so all queried values coincide). -/
theorem routes_case_insensitive_up_to_echo
    (env : ChainEnv) (tz : Int) (a1 a2 : String)
    (hp1 : startsWith0x a1 = true) (hp2 : startsWith0x a2 = true)
    (hl1 : a1.length = 42) (hl2 : a2.length = 42)
    (hlow : a1.data.map Char.toLower = a2.data.map Char.toLower) :
    ((App.get_subscription_status env tz a1).1 = (App.get_subscription_status env tz a2).1) ∧
    ((App.get_subscription_expiry env tz a1).1 = (App.get_subscription_expiry env tz a2).1) ∧
    ((App.get_remaining_time env a1).1 = (App.get_remaining_time env a2).1) ∧
    (∀ st1 st2 b1 b2 t1 t2,
      App.get_subscription_status env tz a1 = (st1, .ok b1, t1) →
      App.get_subscription_status env tz a2 = (st2, .ok b2, t2) →
      b1.wallet_address = a1 ∧ b2.wallet_address = a2 ∧ b1.is_active = b2.is_active ∧
      b1.expiry_timestamp = b2.expiry_timestamp ∧ b1.expiry_date = b2.expiry_date ∧
      b1.remaining_seconds = b2.remaining_seconds ∧ b1.remaining_time = b2.remaining_time) ∧
    (∀ st1 st2 b1 b2 t1 t2,
      App.get_subscription_expiry env tz a1 = (st1, .ok b1, t1) →
      App.get_subscription_expiry env tz a2 = (st2, .ok b2, t2) →
      b1.wallet_address = a1 ∧ b2.wallet_address = a2 ∧
      b1.expiry_timestamp = b2.expiry_timestamp ∧ b1.expiry_date = b2.expiry_date) ∧
    (∀ st1 st2 b1 b2 t1 t2,
      App.get_remaining_time env a1 = (st1, .ok b1, t1) →
      App.get_remaining_time env a2 = (st2, .ok b2, t2) →
      b1.wallet_address = a1 ∧ b2.wallet_address = a2 ∧
      b1.remaining_seconds = b2.remaining_seconds ∧ b1.remaining_time = b2.remaining_time) := by
  have hv1 := validAddr_of_shape a1 hp1 hl1
  have hv2 := validAddr_of_shape a2 hp2 hl2
  have hcs : to_checksum_address env.kec a2 = to_checksum_address env.kec a1 := by
    unfold to_checksum_address
    rw [hlow]
  refine ⟨?_, ?_, ?_, ?_, ?_, ?_⟩
  · simp only [App.get_subscription_status, hv1, hv2, Blockchain.is_subscription_active,
      Blockchain.get_subscription_expiry, Blockchain.get_remaining_time, hcs]
    rcases hc : to_checksum_address env.kec a1 with u | ca
    · simp [hc]
    · simp only [hc]
      rcases ha : env.isActiveCall ca with ae | av
      · rcases ae with m | m <;> simp
      · rcases he : env.getExpiryCall ca with ee | ev
        · rcases ee with m | m <;> simp
        · rcases hr : env.getRemainingCall ca with re | rv
          · rcases re with m | m <;> simp
          · simp
  · simp only [App.get_subscription_expiry, hv1, hv2, Blockchain.get_subscription_expiry, hcs]
    rcases hc : to_checksum_address env.kec a1 with u | ca
    · simp [hc]
    · simp only [hc]
      rcases he : env.getExpiryCall ca with ee | ev
      · rcases ee with m | m <;> simp
      · simp
  · simp only [App.get_remaining_time, hv1, hv2, Blockchain.get_remaining_time, hcs]
    rcases hc : to_checksum_address env.kec a1 with u | ca
    · simp [hc]
    · simp only [hc]
      rcases hr : env.getRemainingCall ca with re | rv
      · rcases re with m | m <;> simp
      · simp
  · intro st1 st2 b1 b2 t1 t2 h1 h2
    simp only [App.get_subscription_status, hv1, hv2, Blockchain.is_subscription_active,
      Blockchain.get_subscription_expiry, Blockchain.get_remaining_time, hcs] at h1 h2
    rcases hc : to_checksum_address env.kec a1 with u | ca <;> simp only [hc] at h1 h2
    · simp at h1
    · rcases ha : env.isActiveCall ca with ae | av <;> simp only [ha] at h1 h2
      · rcases ae with m | m <;> simp at h1
      · rcases he : env.getExpiryCall ca with ee | ev <;> simp only [he] at h1 h2
        · rcases ee with m | m <;> simp at h1
        · rcases hr : env.getRemainingCall ca with re | rv <;> simp only [hr] at h1 h2
          · rcases re with m | m <;> simp at h1
          · simp only [Prod.mk.injEq, RespBody.ok.injEq] at h1 h2
            obtain ⟨-, hb1, -⟩ := h1
            obtain ⟨-, hb2, -⟩ := h2
            subst hb1
            subst hb2
            exact ⟨rfl, rfl, rfl, rfl, rfl, rfl, rfl⟩
  · intro st1 st2 b1 b2 t1 t2 h1 h2
    simp only [App.get_subscription_expiry, hv1, hv2,
      Blockchain.get_subscription_expiry, hcs] at h1 h2
    rcases hc : to_checksum_address env.kec a1 with u | ca <;> simp only [hc] at h1 h2
    · simp at h1
    · rcases he : env.getExpiryCall ca with ee | ev <;> simp only [he] at h1 h2
      · rcases ee with m | m <;> simp at h1
      · simp only [Prod.mk.injEq, RespBody.ok.injEq] at h1 h2
        obtain ⟨-, hb1, -⟩ := h1
        obtain ⟨-, hb2, -⟩ := h2
        subst hb1
        subst hb2
        exact ⟨rfl, rfl, rfl, rfl⟩
  · intro st1 st2 b1 b2 t1 t2 h1 h2
    simp only [App.get_remaining_time, hv1, hv2, Blockchain.get_remaining_time, hcs] at h1 h2
    rcases hc : to_checksum_address env.kec a1 with u | ca <;> simp only [hc] at h1 h2
    · simp at h1
    · rcases hr : env.getRemainingCall ca with re | rv <;> simp only [hr] at h1 h2
      · rcases re with m | m <;> simp at h1
      · simp only [Prod.mk.injEq, RespBody.ok.injEq] at h1 h2
        obtain ⟨-, hb1, -⟩ := h1
        obtain ⟨-, hb2, -⟩ := h2
        subst hb1
        subst hb2
        exact ⟨rfl, rfl, rfl, rfl⟩

theorem routes_case_insensitive_up_to_echo_witness :
    (App.get_subscription_status sampleEnv 0 aLow).1 =
      (App.get_subscription_status sampleEnv 0 aUp).1 ∧
    sampleStatusBody.wallet_address = aLow ∧
    sampleStatusBodyUp.wallet_address = aUp ∧
    sampleStatusBody.expiry_date = sampleStatusBodyUp.expiry_date :=
  have T := routes_case_insensitive_up_to_echo sampleEnv 0 aLow aUp
    (by decide) (by decide) (by decide) (by decide) (by decide)
  have F := T.2.2.2.1 200 200 sampleStatusBody sampleStatusBodyUp
    ["is_subscription_active", "get_subscription_expiry", "get_remaining_time"]
    ["is_subscription_active", "get_subscription_expiry", "get_remaining_time"]
    (by decide) (by decide)
  ⟨T.1, F.1, F.2.1, F.2.2.2.2.1⟩

theorem format_duration_matches_spec_witness :
    format_duration ((59 : Nat) : Int) = durationSpec 59 :=
  format_duration_matches_spec.1 59

theorem format_duration_expired_iff_zero_witness :
    format_duration 5 = "Expired" ↔ (5 : Int) = 0 :=
  (format_duration_expired_iff_zero.1 5)

theorem format_timestamp_renders_local_time_witness :
    format_timestamp 7200 0 = "Never subscribed" :=
  format_timestamp_renders_local_time.1 7200
